import Mathlib

/-!
Verification of the `one_clicks_info` Ansible module
(`plugins/modules/one_clicks_info.py`): a shallow embedding of the
module's `present` method and `main` entry point, followed by theorems
about the filter/result-shaping logic.
-/

namespace OneClicksInfo

/-- A 1-Click application catalog entry.  The remote catalog returns JSON
objects; the module reads the `slug` and `type` keys.  `type` is `Option`
because `val.get("type")` in the Python source returns `None` when the key
is absent. -/
structure OneClick where
  slug : String
  type : Option String
deriving DecidableEq, Repr

/-- The exception raised by the remote client
(`azure.core.exceptions.HttpResponseError`).  `message` models
`err.error.message`, `status_code` models `err.status_code`, and `reason`
models `err.reason`, the three attributes the module reads. -/
structure HttpResponseError where
  message : String
  status_code : Nat
  reason : String
deriving DecidableEq, Repr

/-- The structured error dict built by the module on a remote error:
`{"Message": ..., "Status Code": ..., "Reason": ...}`. -/
structure ErrorRecord where
  Message : String
  StatusCode : Nat
  Reason : String
deriving DecidableEq, Repr

/-- The result record handed back to the host: `exit_json` calls become
`exit` (with `changed`, `msg`, `one_clicks`), `fail_json` calls become
`fail` (with `changed`, `msg`, and the optional `error` dict — `none` when
`fail_json` is called without an `error` keyword). -/
inductive ModuleResult where
  | exit (changed : Bool) (msg : String) (one_clicks : List OneClick)
  | fail (changed : Bool) (msg : String) (error : Option ErrorRecord)
deriving DecidableEq, Repr

/-- The `changed` field of a result record. -/
def ModuleResult.changed : ModuleResult → Bool
  | .exit c _ _ => c
  | .fail c _ _ => c

/-- Python's `str.capitalize()`: first character uppercased, the rest
lowercased. -/
def pyCapitalize (s : String) : String :=
  match s.data with
  | [] => ""
  | c :: cs => String.mk (c.toUpper :: cs.map Char.toLower)

/-- The filtering step of `present`:
`list(filter(lambda val: val.get("type") == click_type, one_clicks))`.
An entry whose `type` key is absent yields `None`, which never equals the
string `click_type`. -/
def filteredClicks (click_type : String) (one_clicks : List OneClick) :
    List OneClick :=
  one_clicks.filter (fun val => val.type == some click_type)

/-- The outcome of the single remote call
`self.client.one_clicks.list()`: either it raises `HttpResponseError`, or
it returns a response dict whose `"1_clicks"` key holds the catalog.
`Except.ok none` models a response with no `"1_clicks"` key at all
(`one_clicks_info.get("1_clicks")` returning `None`). -/
abbrev RemoteOutcome := Except HttpResponseError (Option (List OneClick))

/-- `OneClickApplicationsInformation.present`, as a function of the module's
`type` parameter and the outcome of the remote list call.  The nested
branching mirrors the source: the outer `if one_clicks:` is Python
truthiness on the `.get` result (`None` and the empty list both fall
through to the not-found `fail_json`), and the inner `if click_type:` is
truthiness on the `type` parameter (`None` and the empty string both skip
filtering). -/
def present (type_param : Option String) (remote : RemoteOutcome) :
    ModuleResult :=
  match remote with
  | Except.error err =>
      ModuleResult.fail false err.message
        (some ⟨err.message, err.status_code, err.reason⟩)
  | Except.ok one_clicks_got =>
      match one_clicks_got with
      | some one_clicks =>
          if one_clicks.isEmpty then
            ModuleResult.fail false "Current 1-Click applications not found"
              none
          else
            match type_param with
            | some click_type =>
                if click_type.isEmpty then
                  ModuleResult.exit false "Current 1-Click applications"
                    one_clicks
                else
                  ModuleResult.exit false
                    ("Current " ++ pyCapitalize click_type ++
                      " 1-Click applications")
                    (filteredClicks click_type one_clicks)
            | none =>
                ModuleResult.exit false "Current 1-Click applications"
                  one_clicks
      | none =>
          ModuleResult.fail false "Current 1-Click applications not found"
            none

/-- Modelled from the spec: `missing_required_lib` is the Ansible framework
helper (`ansible.module_utils.basic.missing_required_lib`, not part of this
repository) that produces the failure message for a missing dependency;
per the spec it reports the failure "listing the missing dependency name". -/
def missing_required_lib (lib : String) : String :=
  "Failed to import the required Python library (" ++ lib ++
    ") on the host"

/-- Outcome of `main`: either a `fail_json` for a missing required library
(issued before the `OneClickApplicationsInformation` constructor, hence
before any client construction or network call), or the result of running
the module body. -/
inductive MainOutcome where
  | failedLib (msg : String)
  | ran (result : ModuleResult)
deriving DecidableEq, Repr

/-- The `main` entry point, as a function of the two library-availability
flags (`HAS_AZURE_LIBRARY`, `HAS_PYDO_LIBRARY`), the `type` parameter and
the remote outcome.  `fail_json` raises, so on a missing azure library the
pydo check and the module body never run. -/
def main (has_azure has_pydo : Bool) (type_param : Option String)
    (remote : RemoteOutcome) : MainOutcome :=
  if !has_azure then
    MainOutcome.failedLib (missing_required_lib "azure.core.exceptions")
  else if !has_pydo then
    MainOutcome.failedLib (missing_required_lib "pydo")
  else
    MainOutcome.ran (present type_param remote)

end OneClicksInfo

namespace OneClicksInfo

/-- C1: for every non-empty catalog and a valid type filter (`droplet` or
`kubernetes`), `present` succeeds with `one_clicks` exactly the catalog
entries whose `type` equals the filter (kept even when empty), and the
message is `"Current {Type} 1-Click applications"` with the filter value
capitalized. -/
theorem present_filtered_correct (catalog : List OneClick) (ct : String)
    (hcat : catalog ≠ []) (hct : ct = "droplet" ∨ ct = "kubernetes") :
    present (some ct) (Except.ok (some catalog)) =
      ModuleResult.exit false
        ("Current " ++ pyCapitalize ct ++ " 1-Click applications")
        (filteredClicks ct catalog) ∧
    (∀ e, e ∈ filteredClicks ct catalog ↔ e ∈ catalog ∧ e.type = some ct) ∧
    pyCapitalize ct = (if ct = "droplet" then "Droplet" else "Kubernetes") := by
  have h1 : catalog.isEmpty = false := by
    cases catalog with
    | nil => exact absurd rfl hcat
    | cons a l => rfl
  refine ⟨?_, ?_, ?_⟩
  · rcases hct with h | h <;> subst h <;> simp [present, h1] <;>
      exact fun hE => absurd hE (by decide)
  · intro e
    simp [filteredClicks, List.mem_filter]
  · rcases hct with h | h <;> subst h <;> decide

/-- C1 witness: the spec's example catalog and filter. -/
theorem present_filtered_correct_witness :
    present (some "kubernetes")
        (Except.ok (some [⟨"netdata", some "kubernetes"⟩,
          ⟨"cpanel", some "droplet"⟩])) =
      ModuleResult.exit false
        ("Current " ++ pyCapitalize "kubernetes" ++ " 1-Click applications")
        (filteredClicks "kubernetes"
          [⟨"netdata", some "kubernetes"⟩, ⟨"cpanel", some "droplet"⟩]) ∧
    (∀ e, e ∈ filteredClicks "kubernetes"
        [⟨"netdata", some "kubernetes"⟩, ⟨"cpanel", some "droplet"⟩] ↔
      e ∈ [⟨"netdata", some "kubernetes"⟩, ⟨"cpanel", some "droplet"⟩] ∧
        e.type = some "kubernetes") ∧
    pyCapitalize "kubernetes" =
      (if "kubernetes" = "droplet" then "Droplet" else "Kubernetes") :=
  present_filtered_correct
    [⟨"netdata", some "kubernetes"⟩, ⟨"cpanel", some "droplet"⟩]
    "kubernetes" (by decide) (Or.inr rfl)

/-- C2: for every non-empty catalog and no type filter, `present` succeeds
with `one_clicks` equal to the full catalog and the message
`"Current 1-Click applications"`. -/
theorem present_unfiltered (catalog : List OneClick) (hcat : catalog ≠ []) :
    present none (Except.ok (some catalog)) =
      ModuleResult.exit false "Current 1-Click applications" catalog := by
  have h1 : catalog.isEmpty = false := by
    cases catalog with
    | nil => exact absurd rfl hcat
    | cons a l => rfl
  simp [present, h1]

/-- C2 witness: a concrete two-entry catalog, no filter. -/
theorem present_unfiltered_witness :
    present none
        (Except.ok (some [⟨"netdata", some "kubernetes"⟩,
          ⟨"cpanel", some "droplet"⟩])) =
      ModuleResult.exit false "Current 1-Click applications"
        [⟨"netdata", some "kubernetes"⟩, ⟨"cpanel", some "droplet"⟩] :=
  present_unfiltered
    [⟨"netdata", some "kubernetes"⟩, ⟨"cpanel", some "droplet"⟩] (by decide)

/-- C3: for an empty catalog, regardless of the filter, `present` fails
with the fixed not-found message and no `error` field. -/
theorem present_empty_catalog (type_param : Option String) :
    present type_param (Except.ok (some [])) =
      ModuleResult.fail false "Current 1-Click applications not found"
        none := rfl

/-- C5: for every remote error, `present` fails with a structured error
record holding the error's message, status code and reason, and `msg`
equal to the error's message. -/
theorem present_remote_error (type_param : Option String)
    (err : HttpResponseError) :
    present type_param (Except.error err) =
      ModuleResult.fail false err.message
        (some ⟨err.message, err.status_code, err.reason⟩) := rfl

/-- C9: a response with no `"1_clicks"` key behaves exactly as an empty
catalog: the same fixed not-found failure with no `error` field. -/
theorem present_missing_key (type_param : Option String) :
    present type_param (Except.ok none) =
      present type_param (Except.ok (some [])) ∧
    present type_param (Except.ok none) =
      ModuleResult.fail false "Current 1-Click applications not found"
        none := ⟨rfl, rfl⟩

end OneClicksInfo

namespace OneClicksInfo

/-- C4: for every non-empty catalog and a (truthy) filter matching no
entry, `present` succeeds with an empty `one_clicks` — an outcome distinct
from the failure produced when the catalog itself is empty; filtering
never fails. -/
theorem present_filter_no_match (catalog : List OneClick) (ct : String)
    (hcat : catalog ≠ []) (hct : ct.isEmpty = false)
    (hnm : ∀ e ∈ catalog, e.type ≠ some ct) :
    present (some ct) (Except.ok (some catalog)) =
      ModuleResult.exit false
        ("Current " ++ pyCapitalize ct ++ " 1-Click applications") [] ∧
    present (some ct) (Except.ok (some catalog)) ≠
      present (some ct) (Except.ok (some [])) := by
  have h1 : catalog.isEmpty = false := by
    cases catalog with
    | nil => exact absurd rfl hcat
    | cons a l => rfl
  have h2 : filteredClicks ct catalog = [] := by
    simp only [filteredClicks, List.filter_eq_nil_iff]
    intro e he
    simpa using hnm e he
  constructor
  · simp [present, h1, hct, h2]
  · simp [present, h1, hct, h2]

/-- C4 witness: a one-entry droplet catalog filtered by kubernetes. -/
theorem present_filter_no_match_witness :
    (present (some "kubernetes")
        (Except.ok (some [⟨"cpanel", some "droplet"⟩])) =
      ModuleResult.exit false
        ("Current " ++ pyCapitalize "kubernetes" ++
          " 1-Click applications") [] ∧
    present (some "kubernetes")
        (Except.ok (some [⟨"cpanel", some "droplet"⟩])) ≠
      present (some "kubernetes") (Except.ok (some []))) :=
  present_filter_no_match [⟨"cpanel", some "droplet"⟩] "kubernetes"
    (by decide) (by decide) (by decide)

/-- C6: for every type parameter and every outcome of the remote call,
the result record reports `changed = false`, on success and on failure
alike. -/
theorem present_never_changed (type_param : Option String)
    (remote : RemoteOutcome) :
    (present type_param remote).changed = false := by
  rcases remote with err | oc
  · rfl
  rcases oc with _ | l
  · rfl
  cases h : l.isEmpty with
  | true => simp [present, h, ModuleResult.changed]
  | false =>
      cases type_param with
      | none => simp [present, h, ModuleResult.changed]
      | some ct =>
          cases h2 : ct.isEmpty <;>
            simp [present, h, h2, ModuleResult.changed]

/-- C7: the operation is deterministic and idempotent: two invocations
with the same parameters against the same remote response produce
identical result records. -/
theorem present_idempotent (tp1 tp2 : Option String)
    (r1 r2 : RemoteOutcome) (hp : tp1 = tp2) (hr : r1 = r2) :
    present tp1 r1 = present tp2 r2 := by rw [hp, hr]

/-- C7 witness: two identical concrete invocations. -/
theorem present_idempotent_witness :
    present (some "droplet")
        (Except.ok (some [⟨"npool", some "droplet"⟩])) =
      present (some "droplet")
        (Except.ok (some [⟨"npool", some "droplet"⟩])) :=
  present_idempotent (some "droplet") (some "droplet")
    (Except.ok (some [⟨"npool", some "droplet"⟩]))
    (Except.ok (some [⟨"npool", some "droplet"⟩])) rfl rfl

/-- C8: if a required library is missing, `main` fails with the
missing-library message (which lists the dependency's name) before the
module body runs; the outcome does not depend on the remote call at all. -/
theorem main_missing_lib (has_azure has_pydo : Bool)
    (type_param : Option String) (remote : RemoteOutcome)
    (h : has_azure = false ∨ has_pydo = false) :
    ∃ lib, (lib = "azure.core.exceptions" ∨ lib = "pydo") ∧
      main has_azure has_pydo type_param remote =
        MainOutcome.failedLib (missing_required_lib lib) ∧
      (∃ a b, missing_required_lib lib = a ++ lib ++ b) ∧
      ∀ remote2, main has_azure has_pydo type_param remote2 =
        main has_azure has_pydo type_param remote := by
  cases has_azure with
  | false =>
      refine ⟨"azure.core.exceptions", Or.inl rfl, by simp [main],
        ⟨"Failed to import the required Python library (",
          ") on the host", rfl⟩, fun remote2 => by simp [main]⟩
  | true =>
      have hp : has_pydo = false := h.resolve_left (by simp)
      subst hp
      exact ⟨"pydo", Or.inr rfl, by simp [main],
        ⟨"Failed to import the required Python library (",
          ") on the host", rfl⟩, fun remote2 => by simp [main]⟩

/-- C8 witness: azure library missing, concrete parameters. -/
theorem main_missing_lib_witness :
    ∃ lib, (lib = "azure.core.exceptions" ∨ lib = "pydo") ∧
      main false true (some "droplet") (Except.ok (some [])) =
        MainOutcome.failedLib (missing_required_lib lib) ∧
      (∃ a b, missing_required_lib lib = a ++ lib ++ b) ∧
      ∀ remote2, main false true (some "droplet") remote2 =
        main false true (some "droplet") (Except.ok (some [])) :=
  main_missing_lib false true (some "droplet") (Except.ok (some []))
    (Or.inl rfl)

/-- C10: for every catalog and filter value, the filtered sequence is an
order-preserving subsequence of the catalog consisting of exactly the
entries whose `type` equals the filter; an entry with no `type` field
never matches. -/
theorem filteredClicks_spec (catalog : List OneClick) (ct : String) :
    (filteredClicks ct catalog).Sublist catalog ∧
    (∀ e, e ∈ filteredClicks ct catalog ↔ e ∈ catalog ∧ e.type = some ct) ∧
    (∀ e, e.type = none → e ∉ filteredClicks ct catalog) := by
  refine ⟨List.filter_sublist catalog, fun e => ?_, fun e he hmem => ?_⟩
  · simp [filteredClicks, List.mem_filter]
  · have h := (List.mem_filter.mp hmem).2
    rw [he] at h
    exact absurd h (by simp)

end OneClicksInfo
